import Mathlib

/-!
Verification of the postMessage transport core (the Rocky.js shim layered on
the key/value app-message transport).  The definitions below are a shallow
embedding of the JavaScript source: the Control session state machine, the
dual-priority Sender with chunking and bounded retry, the chunk-reassembly
Receiver, and the public listener registration.  External collaborators
(`JSON.parse`, `utf8.decode`, `JSON.stringify`) are injected as function
parameters; timers are folded into the retry step; the per-send callbacks of
the lower transport are modelled as explicit events.
-/

/-- Wire key string for reset requests.  In the source the dictionaries are
built with object-literal keys, so the literal identifier itself (including
the `ControlKey` prefix) is the wire string. -/
def ControlKeyResetRequest : String := "ControlKeyResetRequest"

/-- Wire key string for reset-complete messages. -/
def ControlKeyResetComplete : String := "ControlKeyResetComplete"

/-- Wire key string for data chunks. -/
def ControlKeyChunk : String := "ControlKeyChunk"

/-- Wire key string for unsupported-protocol errors. -/
def ControlKeyUnsupportedError : String := "ControlKeyUnsupportedError"

/-- The empty string (used when talking about decoding an empty byte buffer). -/
def emptyStr : String := ""

/-- The failure reason handed to `_completeObject` when chunk retries are
exhausted. -/
def tooManyFailures : String := "Too many failed transfer attempts"

/-- The four states of the Control session state machine
(`ControlStateDisconnected`, `ControlStateAwaitingResetCompleteRemoteInitiated`,
`ControlStateAwaitingResetCompleteLocalInitiated`, `ControlStateSessionOpen`). -/
inductive CtrlState where
  | disconnected
  | awaitingRemoteInitiated
  | awaitingLocalInitiated
  | sessionOpen
deriving DecidableEq, Repr

/-- A value stored under a key of an app-message dictionary: either a plain
number or a byte array. -/
inductive WireValue where
  | num (n : Nat)
  | bytes (bs : List Nat)
deriving DecidableEq, Repr

/-- A single-key dictionary handed to `__Pebble.sendAppMessage`. -/
structure AppMessage where
  key : String
  value : WireValue
deriving DecidableEq, Repr

/-- An inbound `appmessage` payload: a key/value dictionary. -/
def Payload : Type := List (String × WireValue)

/-- Value stored under a key of an inbound payload (JS property lookup). -/
def lookupValue (p : Payload) (k : String) : Option WireValue :=
  List.lookup k p

/-- The JS `key in payload` membership test. -/
def hasKey (p : Payload) (k : String) : Bool :=
  (lookupValue p k).isSome

/-- Coercion of a looked-up payload value to a byte array; a missing or
numeric value behaves like indexing past the end (every index reads as
`undefined`, i.e. no byte). -/
def valueAsBytes : Option WireValue → List Nat
  | some (WireValue.bytes bs) => bs
  | _ => []

/-- Local protocol capabilities (the `PROTOCOL` constant). -/
structure ProtocolCaps where
  min_version : Nat
  max_version : Nat
  max_tx_chunk_size : Nat
  max_rx_chunk_size : Nat
deriving DecidableEq, Repr

/-- `PROTOCOL`: min/max version 1, chunk sizes 1000. -/
def PROTOCOL : ProtocolCaps :=
  { min_version := 1, max_version := 1
  , max_tx_chunk_size := 1000, max_rx_chunk_size := 1000 }

/-- Negotiated session parameters (`_control.protocol`). -/
structure Protocol where
  version : Nat
  tx_chunk_size : Nat
  rx_chunk_size : Nat
deriving DecidableEq, Repr

/-- The remote capabilities unpacked from a ResetComplete byte array
(`_unpackResetCompleteMessage`).  Indexing past the end of the array yields
`undefined` in JS, modelled by `Option` for the version fields; the chunk-size
fields go through bitwise operators, which coerce `undefined` to 0. -/
structure RemoteProtocol where
  min_version : Option Nat
  max_version : Option Nat
  max_tx_chunk_size : Nat
  max_rx_chunk_size : Nat
deriving DecidableEq, Repr

/-- `_unpackResetCompleteMessage`: bytes 0/1 are the version range, bytes 2-3
and 4-5 are big-endian 16-bit chunk sizes. -/
def unpackResetCompleteMessage (data : List Nat) : RemoteProtocol :=
  { min_version := data.get? 0
  , max_version := data.get? 1
  , max_tx_chunk_size := ((data.getD 2 0) <<< 8) ||| (data.getD 3 0)
  , max_rx_chunk_size := ((data.getD 4 0) <<< 8) ||| (data.getD 5 0) }

/-- `_remoteProtocolValidateAndSet`: the remote protocol is accepted iff both
version fields are present and the version ranges overlap; on success the
negotiated parameters are the pairwise minima.  The source mutates
`_control.protocol` and returns a boolean; here the new parameters are
returned as `some`. -/
def remoteProtocolValidateAndSet (remote : RemoteProtocol) : Option Protocol :=
  match remote.min_version, remote.max_version with
  | some minv, some maxv =>
    if minv > PROTOCOL.max_version ∨ maxv < PROTOCOL.min_version then none
    else some
      { version := min maxv PROTOCOL.max_version
      , tx_chunk_size := min remote.max_rx_chunk_size PROTOCOL.max_tx_chunk_size
      , rx_chunk_size := min remote.max_tx_chunk_size PROTOCOL.max_rx_chunk_size }
  | _, _ => none

/-- A parsed chunk (`_unpackChunk` result).  `num31` is the 31-bit header
value: the total size for a first chunk, the byte offset otherwise. -/
structure Chunk where
  is_first : Bool
  num31 : Nat
  data : List Nat
deriving DecidableEq, Repr

/-- `_unpackChunk`: rejects byte arrays of length at most 4; bit 7 of byte 3
is the is-first flag, the remaining 31 bits (little-endian) are `num31`, and
the payload is everything after the 4-byte header. -/
def unpackChunk (data : List Nat) : Option Chunk :=
  if data.length ≤ 4 then none
  else
    let b3 := data.getD 3 0
    let is_first := (b3 &&& 128) == 128
    let msbyte := b3 &&& 127
    let num31 := (msbyte <<< 24) ||| ((data.getD 2 0) <<< 16) |||
                 ((data.getD 1 0) <<< 8) ||| data.getD 0 0
    some { is_first := is_first, num31 := num31, data := data.drop 4 }

/-- The chunk reassembly buffer (`ChunkReceiver` fields).  The JS string
`utf8_json_string` accumulates one character per byte, so it is modelled as
the list of byte values. -/
structure RecvState where
  utf8_json_string : List Nat
  total_size_bytes : Nat
  received_size_bytes : Nat
deriving DecidableEq, Repr

/-- Result of one call of the chunk handler: the updated buffer, the boolean
the handler returns (`false` is a protocol violation), and the data of the
`message` event it emitted, if any. -/
structure RecvResult where
  state : RecvState
  ok : Bool
  message : Option String
deriving DecidableEq, Repr

/-- `ChunkReceiver.handleChunkReceived`.  `parse` stands for `JSON.parse`
(returning `none` where the source catches a parse exception) and `decode`
for `utf8.decode` (modelled total).  A `none` chunk is the `undefined`
produced by `_unpackChunk` for short data. -/
def handleChunkReceived (parse : String → Option String) (decode : List Nat → String)
    (st : RecvState) (chunk? : Option Chunk) : RecvResult :=
  match chunk? with
  | none => ⟨st, false, none⟩
  | some chunk =>
    let isExpectingFirst := st.utf8_json_string.length == 0
    if chunk.is_first != isExpectingFirst then ⟨st, false, none⟩
    else if chunk.is_first = false ∧
        (st.received_size_bytes ≠ chunk.num31 ∨
         st.received_size_bytes + chunk.data.length > st.total_size_bytes) then
      ⟨st, false, none⟩
    else
      let total := if chunk.is_first then chunk.num31 else st.total_size_bytes
      let received0 := if chunk.is_first then 0 else st.received_size_bytes
      let received := received0 + chunk.data.length
      let isLastChunk := received == total
      let isLastChunkZeroTerminated := chunk.data.getLast? == some 0
      let endIdx := if isLastChunk then chunk.data.length - 1 else chunk.data.length
      let acc := st.utf8_json_string ++ chunk.data.take endIdx
      if isLastChunk then
        let msg : Option String :=
          if isLastChunkZeroTerminated then parse (decode acc) else none
        ⟨{ utf8_json_string := []
         , total_size_bytes := total
         , received_size_bytes := received }, true, msg⟩
      else
        ⟨{ utf8_json_string := acc
         , total_size_bytes := total
         , received_size_bytes := received }, true, none⟩

/-- Run the chunk handler over a sequence of (already unpacked) chunks,
keeping only the buffer state. -/
def recvRun (parse : String → Option String) (decode : List Nat → String)
    (cs : List (Option Chunk)) (st : RecvState) : RecvState :=
  cs.foldl (fun st c => (handleChunkReceived parse decode st c).state) st

/-- The initial reassembly buffer. -/
def recvInit : RecvState := ⟨[], 0, 0⟩

/-- What an outbound `postMessage` object becomes after `_createDataObject`:
the JSON string produced by `JSON.stringify` and its UTF-8 bytes with the
trailing `0x00` terminator.  Serialization itself is external
(`JSON.stringify` / `utf8.encode`), so the entry is taken as given. -/
structure DataObject where
  json : String
  data : List Nat
deriving DecidableEq, Repr

/-- Kind of the in-flight message (`_currentMessageType`). -/
inductive MsgKind where
  | control
  | object
deriving DecidableEq, Repr

/-- Events the core delivers upward (`postmessageconnected`,
`postmessagedisconnected`, `message`, `postmessageerror`).  An error event
records the two arguments of `_scheduleAsyncPostMessageError`: the original
JSON string of the dropped object and the failure reason (delivery re-parses
the string; the reason additionally goes to the console log). -/
inductive CoreEvent where
  | connected
  | disconnected
  | message (data : String)
  | error (json : String) (reason : String)
deriving DecidableEq, Repr

/-- The whole state of the core: the Control machine (`_control`), the
Sender (`_out`), the Receiver buffer (`_in`), plus two observation logs:
`sent` records every dictionary handed to `__Pebble.sendAppMessage`, and
`events` the upward events in emission order.  `fatalError` marks the throw
on an UnsupportedError received in the remote-initiated state. -/
structure CoreState where
  ctrlState : CtrlState
  protocol : Protocol
  controlQueue : List AppMessage
  objectQueue : List DataObject
  currentMessageType : Option MsgKind
  failureCount : Nat
  offsetBytes : Nat
  chunkPayloadSize : Nat
  recv : RecvState
  sent : List AppMessage
  events : List CoreEvent
  fatalError : Bool
deriving DecidableEq, Repr

/-- The state right after the shim is installed. -/
def initialState : CoreState :=
  { ctrlState := CtrlState.disconnected
  , protocol := ⟨0, 0, 0⟩
  , controlQueue := []
  , objectQueue := []
  , currentMessageType := none
  , failureCount := 0
  , offsetBytes := 0
  , chunkPayloadSize := 0
  , recv := recvInit
  , sent := []
  , events := []
  , fatalError := false }

/-- `Sender._resetCurrent`: clear the in-flight bookkeeping. -/
def resetCurrent (s : CoreState) : CoreState :=
  { s with currentMessageType := none, failureCount := 0
         , offsetBytes := 0, chunkPayloadSize := 0 }

/-- `Sender._getNextMessageType`: control messages are strictly prioritized
over objects. -/
def getNextMessageType (s : CoreState) : Option MsgKind :=
  match s.controlQueue, s.objectQueue with
  | _ :: _, _ => some MsgKind.control
  | [], _ :: _ => some MsgKind.object
  | [], [] => none

/-- `Sender._completeObject`: pop the head object, clear the in-flight state
and, on failure, emit the asynchronous error event carrying the object's
original JSON string.  (With an empty queue the source would fault reading
the popped entry; that call never happens.) -/
def completeObject (s : CoreState) (failureReason : Option String) : CoreState :=
  match s.objectQueue with
  | [] => resetCurrent s
  | o :: rest =>
    let s1 := resetCurrent { s with objectQueue := rest }
    match failureReason with
    | none => s1
    | some r => { s1 with events := s1.events ++ [CoreEvent.error o.json r] }

/-- `Sender._trySendNextControl`: hand the head of the control queue to the
lower transport.  (With an empty queue the source would send `undefined`;
the call is only reached with a nonempty queue.) -/
def trySendNextControl (s : CoreState) : CoreState :=
  match s.controlQueue with
  | [] => s
  | m :: _ => { s with sent := s.sent ++ [m] }

/-- The 4-byte chunk header: little-endian 31-bit value with bit 7 of the
last byte repurposed as the is-first flag (valid for `n` below 2^31, the
protocol's own bound). -/
def chunkHeader (isFirst : Bool) (n : Nat) : List Nat :=
  [ n &&& 255
  , (n >>> 8) &&& 255
  , (n >>> 16) &&& 255
  , ((n >>> 24) &&& 127) ||| (if isFirst then 128 else 0) ]

mutual

/-- `Sender._sendNext`: if nothing is in flight, start sending the highest
priority queued message.  The `fuel` argument bounds the depth of the mutual
recursion between `_sendNext`, `_trySendNextChunk` and `_chunkFailure` (the
source recurses through retry timers, folded here into direct calls); with
fuel 0 the remaining cascade is cut off and the state returned unchanged. -/
def sendNext : Nat → CoreState → CoreState
  | 0, s => s
  | fuel + 1, s =>
    if s.currentMessageType.isSome then s
    else
      match getNextMessageType s with
      | none => s
      | some MsgKind.control =>
        trySendNextControl { s with currentMessageType := some MsgKind.control }
      | some MsgKind.object =>
        trySendNextChunk fuel { s with currentMessageType := some MsgKind.object }

/-- `Sender._trySendNextChunk`: yield to a newly arrived control message,
synthesize a failure when the session is closed, otherwise hand the next
chunk of the head object to the lower transport. -/
def trySendNextChunk : Nat → CoreState → CoreState
  | 0, s => s
  | fuel + 1, s =>
    if getNextMessageType s ≠ some MsgKind.object then
      sendNext fuel (resetCurrent s)
    else if s.ctrlState ≠ CtrlState.sessionOpen then
      chunkFailure fuel { s with offsetBytes := 0 }
    else
      match s.objectQueue with
      | [] => s
      | o :: _ =>
        let size := min s.protocol.tx_chunk_size (o.data.length - s.offsetBytes)
        let isFirst := s.offsetBytes == 0
        let n := if isFirst then o.data.length else s.offsetBytes
        let payload := (o.data.drop s.offsetBytes).take size
        { s with chunkPayloadSize := size
               , sent := s.sent ++
                   [⟨ControlKeyChunk, WireValue.bytes (chunkHeader isFirst n ++ payload)⟩] }

/-- `Sender._chunkFailure`: count the failure; retry the same chunk while the
count stays at 3 or below (the 1000 ms timer is folded into the call),
otherwise drop the head object with the error event and move on. -/
def chunkFailure : Nat → CoreState → CoreState
  | 0, s => s
  | fuel + 1, s =>
    let s1 := { s with failureCount := s.failureCount + 1 }
    if s1.failureCount ≤ 3 then trySendNextChunk fuel s1
    else sendNext fuel (completeObject s1 (some tooManyFailures))

end

/-- `Sender._chunkSuccess`: advance the offset; finish the object when the
whole buffer has been sent, otherwise send the next chunk. -/
def chunkSuccess (fuel : Nat) (s : CoreState) : CoreState :=
  match s.objectQueue with
  | [] => s
  | o :: _ =>
    let s1 := { s with offsetBytes := s.offsetBytes + s.chunkPayloadSize }
    if s1.offsetBytes = o.data.length then sendNext fuel (completeObject s1 none)
    else trySendNextChunk fuel s1

/-- `Sender._controlSuccess`: pop the delivered control message and continue. -/
def controlSuccess (fuel : Nat) (s : CoreState) : CoreState :=
  sendNext fuel (resetCurrent { s with controlQueue := s.controlQueue.tail })

/-- `Sender.sendControl`: enqueue a control dictionary and kick the send
loop. -/
def sendControl (fuel : Nat) (s : CoreState) (msg : AppMessage) : CoreState :=
  sendNext fuel { s with controlQueue := s.controlQueue ++ [msg] }

/-- `Sender.sendObject` (the implementation of `Pebble.postMessage`). -/
def sendObject (fuel : Nat) (s : CoreState) (o : DataObject) : CoreState :=
  sendNext fuel { s with objectQueue := s.objectQueue ++ [o] }

/-- `_control.resetProtocol`: negotiated parameters back to zero. -/
def resetProtocol (s : CoreState) : CoreState :=
  { s with protocol := ⟨0, 0, 0⟩ }

/-- The byte array of the locally sent ResetComplete (a `Uint8Array`
truncates each stored value mod 256). -/
def resetCompleteData : List Nat :=
  [ PROTOCOL.min_version % 256
  , PROTOCOL.max_version % 256
  , (PROTOCOL.max_tx_chunk_size >>> 8) % 256
  , PROTOCOL.max_tx_chunk_size % 256
  , (PROTOCOL.max_rx_chunk_size >>> 8) % 256
  , PROTOCOL.max_rx_chunk_size % 256 ]

/-- `_controlSendResetComplete`. -/
def controlSendResetComplete (fuel : Nat) (s : CoreState) : CoreState :=
  sendControl fuel s ⟨ControlKeyResetComplete, WireValue.bytes resetCompleteData⟩

/-- `_controlSendResetRequest`. -/
def controlSendResetRequest (fuel : Nat) (s : CoreState) : CoreState :=
  sendControl fuel s ⟨ControlKeyResetRequest, WireValue.num 0⟩

/-- `_controlSendUnsupportedError`. -/
def controlSendUnsupportedError (fuel : Nat) (s : CoreState) : CoreState :=
  sendControl fuel s ⟨ControlKeyUnsupportedError, WireValue.num 0⟩

/-- `ControlTransitions`: the entry action of each target state.  Note that
the entry action of `Disconnected` in the source assigns
`ControlStateAwaitingResetCompleteRemoteInitiated` to `_control.state`. -/
def controlTransition (fuel : Nat) (s : CoreState) (target from_state : CtrlState) : CoreState :=
  match target with
  | CtrlState.disconnected =>
    { resetProtocol s with ctrlState := CtrlState.awaitingRemoteInitiated }
  | CtrlState.awaitingRemoteInitiated =>
    controlSendResetComplete fuel
      { resetProtocol s with ctrlState := CtrlState.awaitingRemoteInitiated }
  | CtrlState.awaitingLocalInitiated =>
    let s1 := if from_state ≠ CtrlState.awaitingLocalInitiated
              then controlSendResetRequest fuel s else s
    { resetProtocol s1 with ctrlState := CtrlState.awaitingLocalInitiated }
  | CtrlState.sessionOpen =>
    { s with ctrlState := CtrlState.sessionOpen
           , events := s.events ++ [CoreEvent.connected] }

/-- `_control.enter`: run the entry action of the target state, then emit
`disconnected` when leaving `SessionOpen` for any other state. -/
def enter (fuel : Nat) (s : CoreState) (target : CtrlState) : CoreState :=
  let prev := s.ctrlState
  let s1 := controlTransition fuel s target prev
  if prev = CtrlState.sessionOpen ∧ target ≠ CtrlState.sessionOpen then
    { s1 with events := s1.events ++ [CoreEvent.disconnected] }
  else s1

/-- `ControlHandlers` dispatched by `_control.handle`: the action of the
current state on an inbound payload. -/
def handle (parse : String → Option String) (decode : List Nat → String)
    (fuel : Nat) (s : CoreState) (p : Payload) : CoreState :=
  match s.ctrlState with
  | CtrlState.disconnected => s
  | CtrlState.awaitingRemoteInitiated =>
    if hasKey p ControlKeyResetComplete then
      match remoteProtocolValidateAndSet
          (unpackResetCompleteMessage (valueAsBytes (lookupValue p ControlKeyResetComplete))) with
      | some prot => enter fuel { s with protocol := prot } CtrlState.sessionOpen
      | none => s
    else if hasKey p ControlKeyResetRequest then
      enter fuel s CtrlState.awaitingRemoteInitiated
    else if hasKey p ControlKeyChunk then
      enter fuel s CtrlState.awaitingLocalInitiated
    else if hasKey p ControlKeyUnsupportedError then
      { s with fatalError := true }
    else s
  | CtrlState.awaitingLocalInitiated =>
    if hasKey p ControlKeyResetComplete then
      match remoteProtocolValidateAndSet
          (unpackResetCompleteMessage (valueAsBytes (lookupValue p ControlKeyResetComplete))) with
      | some prot =>
        enter fuel (controlSendResetComplete fuel { s with protocol := prot })
          CtrlState.sessionOpen
      | none => controlSendUnsupportedError fuel s
    else s
  | CtrlState.sessionOpen =>
    if hasKey p ControlKeyChunk then
      match lookupValue p ControlKeyChunk with
      | some (WireValue.bytes d) =>
        let r := handleChunkReceived parse decode s.recv (unpackChunk d)
        let s1 := { s with recv := r.state
                         , events := s.events ++
                             (match r.message with
                              | some m => [CoreEvent.message m]
                              | none => []) }
        if r.ok then s1 else enter fuel s1 CtrlState.awaitingLocalInitiated
      | _ => { s with fatalError := true }
    else if hasKey p ControlKeyResetRequest then
      enter fuel s CtrlState.awaitingRemoteInitiated
    else enter fuel s CtrlState.awaitingLocalInitiated

/-- `Sender._controlFailure`: count the failure; resend the same head
message while the count stays at 3 or below, otherwise drop it and force the
Control machine through the `Disconnected` entry action. -/
def controlFailure (fuel : Nat) (s : CoreState) : CoreState :=
  let s1 := { s with failureCount := s.failureCount + 1 }
  if s1.failureCount ≤ 3 then trySendNextControl s1
  else
    let s2 := resetCurrent { s1 with controlQueue := s1.controlQueue.tail }
    sendNext fuel (enter fuel s2 CtrlState.disconnected)

/-- The external stimuli of the core: the lower transport's `ready` and
`appmessage` events, the per-send success/failure callbacks, and a
`postMessage` call from the application. -/
inductive Ev where
  | ready
  | appmessage (p : Payload)
  | controlSendSuccess
  | controlSendFailure
  | chunkSendSuccess
  | chunkSendFailure
  | postMessage (o : DataObject)

/-- One reaction of the core to a stimulus.  The send callbacks are guarded
by the in-flight kind they belong to (the lower transport only calls back on
a send the Sender actually submitted). -/
def step (parse : String → Option String) (decode : List Nat → String)
    (fuel : Nat) (s : CoreState) : Ev → CoreState
  | Ev.ready => enter fuel s CtrlState.awaitingLocalInitiated
  | Ev.appmessage p => handle parse decode fuel s p
  | Ev.controlSendSuccess =>
    if s.currentMessageType = some MsgKind.control then controlSuccess fuel s else s
  | Ev.controlSendFailure =>
    if s.currentMessageType = some MsgKind.control then controlFailure fuel s else s
  | Ev.chunkSendSuccess =>
    if s.currentMessageType = some MsgKind.object ∧ s.objectQueue ≠ []
    then chunkSuccess fuel s else s
  | Ev.chunkSendFailure =>
    if s.currentMessageType = some MsgKind.object ∧ s.objectQueue ≠ []
    then chunkFailure fuel s else s
  | Ev.postMessage o => sendObject fuel s o

/-- Run the core from the initial state over a sequence of stimuli. -/
def run (parse : String → Option String) (decode : List Nat → String)
    (fuel : Nat) (evs : List Ev) : CoreState :=
  evs.foldl (step parse decode fuel) initialState

/-- What `Pebble.addEventListener` does with a registration, from the
caller's point of view. -/
inductive ListenerAction where
  | registerLocal
  | raiseError
  | forward
deriving DecidableEq, Repr

/-- `_isPostMessageEvent`: the four event names the shim handles itself. -/
def isPostMessageEvent (e : String) : Bool :=
  e == "message" || e == "postmessageerror" ||
  e == "postmessageconnected" || e == "postmessagedisconnected"

/-- `Pebble.addEventListener`: shim events are registered locally,
`appmessage` raises an error, everything else is forwarded to the original
`__Pebble.addEventListener`. -/
def addEventListenerAction (e : String) : ListenerAction :=
  if isPostMessageEvent e then ListenerAction.registerLocal
  else if e == "appmessage" then ListenerAction.raiseError
  else ListenerAction.forward

/-- Fields of the core that the send cascade (`_sendNext`,
`_trySendNextChunk`, `_chunkFailure` and their helpers) leaves alone, plus
the two monotone observations: events are only appended and the object queue
only shrinks from the front. -/
def SenderFrame (s t : CoreState) : Prop :=
  t.ctrlState = s.ctrlState ∧ t.protocol = s.protocol ∧
  t.controlQueue = s.controlQueue ∧ t.recv = s.recv ∧
  t.fatalError = s.fatalError ∧
  (∃ evtail, t.events = s.events ++ evtail) ∧
  (∃ dropped, s.objectQueue = dropped ++ t.objectQueue)

/-- The negotiated-parameters invariant that actually holds at every
reachable state: outside `SessionOpen` all parameters are zero; inside
`SessionOpen` the version is positive (the chunk sizes need not be). -/
def ParamsInv (s : CoreState) : Prop :=
  (s.ctrlState = CtrlState.sessionOpen → 0 < s.protocol.version) ∧
  (s.ctrlState ≠ CtrlState.sessionOpen → s.protocol = ⟨0, 0, 0⟩)

/-- A wire key the core is allowed to use. -/
def KeyOK (k : String) : Prop :=
  k = ControlKeyResetRequest ∨ k = ControlKeyResetComplete ∨
  k = ControlKeyChunk ∨ k = ControlKeyUnsupportedError

/-- Every dictionary handed to the lower transport so far, and every entry
still waiting in the control queue, uses one of the four wire keys. -/
def KeysOK (s : CoreState) : Prop :=
  (∀ m ∈ s.sent, KeyOK m.key) ∧ (∀ m ∈ s.controlQueue, KeyOK m.key)

/-- The buffer-length identity of the reassembly buffer: whenever it is
nonempty, the received-byte counter matches its length. -/
def RecvInv (st : RecvState) : Prop :=
  st.utf8_json_string ≠ [] → st.received_size_bytes = st.utf8_json_string.length

/-- The size bound of the reassembly buffer: whenever it is nonempty, the
received-byte counter stays within the announced total. -/
def RecvBound (st : RecvState) : Prop :=
  st.utf8_json_string ≠ [] → st.received_size_bytes ≤ st.total_size_bytes

/-- The event name the shim refuses to register (App Message is not
supported with Rocky.js apps). -/
def appmessageName : String := "appmessage"

/-- A lower-transport event name used to exercise the forwarding path. -/
def webviewclosedName : String := "webviewclosed"

/-- A concrete stand-in for `JSON.parse` used in witnesses: it rejects the
empty string (as ECMAScript JSON.parse does) and accepts anything else. -/
def parseSample : String → Option String :=
  fun s => if s = emptyStr then none else some s

/-- A concrete stand-in for `utf8.decode` used in witnesses: it maps every
byte buffer to the empty string (in particular the empty buffer). -/
def decodeSample : List Nat → String := fun _ => emptyStr

/-- A core state sitting in an open session with the standard negotiated
parameters, used to instantiate session-open scenarios. -/
def sOpenSample : CoreState :=
  { initialState with ctrlState := CtrlState.sessionOpen, protocol := ⟨1, 1000, 1000⟩ }

/-- A core state with an in-flight control message that has already failed
three times, used to instantiate the retry-exhaustion scenarios. -/
def sCtrlFail : CoreState :=
  { initialState with
      ctrlState := CtrlState.sessionOpen
      protocol := ⟨1, 1000, 1000⟩
      controlQueue := [⟨ControlKeyResetRequest, WireValue.num 0⟩]
      currentMessageType := some MsgKind.control
      failureCount := 3 }

/-- The queued object used in concrete sender scenarios: JSON string "1",
UTF-8 bytes with the 0x00 terminator. -/
def objSample : DataObject := ⟨"1", [49, 0]⟩

/-- A core state whose head object chunk has already failed three times. -/
def sChunkFail : CoreState :=
  { initialState with
      ctrlState := CtrlState.sessionOpen
      protocol := ⟨1, 1000, 1000⟩
      objectQueue := [objSample]
      currentMessageType := some MsgKind.object
      failureCount := 3
      chunkPayloadSize := 2 }

/-- The control message used in concrete preemption scenarios. -/
def ctrlMsgSample : AppMessage := ⟨ControlKeyResetRequest, WireValue.num 0⟩

/-- A core state in an open session whose head object has been partially
sent (offset 1 of 2 bytes) while a control message waits in the queue. -/
def sPreempt : CoreState :=
  { initialState with
      ctrlState := CtrlState.sessionOpen
      protocol := ⟨1, 1000, 1000⟩
      controlQueue := [ctrlMsgSample]
      objectQueue := [objSample]
      currentMessageType := some MsgKind.object
      offsetBytes := 1
      chunkPayloadSize := 1 }

theorem senderFrame_rfl (s : CoreState) : SenderFrame s s :=
  ⟨rfl, rfl, rfl, rfl, rfl, ⟨[], by simp⟩, ⟨[], by simp⟩⟩

theorem senderFrame_trans {a b c : CoreState}
    (h1 : SenderFrame a b) (h2 : SenderFrame b c) : SenderFrame a c := by
  obtain ⟨e1, e2, e3, e4, e5, ⟨t1, ht1⟩, ⟨d1, hd1⟩⟩ := h1
  obtain ⟨f1, f2, f3, f4, f5, ⟨t2, ht2⟩, ⟨d2, hd2⟩⟩ := h2
  exact ⟨f1.trans e1, f2.trans e2, f3.trans e3, f4.trans e4, f5.trans e5,
    ⟨t1 ++ t2, by rw [ht2, ht1, List.append_assoc]⟩,
    ⟨d1 ++ d2, by rw [hd1, hd2, List.append_assoc]⟩⟩

theorem senderFrame_resetCurrent (s : CoreState) : SenderFrame s (resetCurrent s) :=
  ⟨rfl, rfl, rfl, rfl, rfl, ⟨[], by simp [resetCurrent]⟩, ⟨[], by simp [resetCurrent]⟩⟩

theorem senderFrame_completeObject (s : CoreState) (r : Option String) :
    SenderFrame s (completeObject s r) := by
  rcases hq : s.objectQueue with _ | ⟨o, rest⟩
  · simp only [completeObject, hq]
    exact senderFrame_resetCurrent s
  · rcases r with _ | reason
    · simp only [completeObject, hq]
      exact ⟨rfl, rfl, rfl, rfl, rfl, ⟨[], by simp [resetCurrent]⟩,
        ⟨[o], by simp [resetCurrent, hq]⟩⟩
    · simp only [completeObject, hq]
      exact ⟨rfl, rfl, rfl, rfl, rfl,
        ⟨[CoreEvent.error o.json reason], by simp [resetCurrent]⟩,
        ⟨[o], by simp [resetCurrent, hq]⟩⟩

theorem senderFrame_trySendNextControl (s : CoreState) :
    SenderFrame s (trySendNextControl s) := by
  rcases hq : s.controlQueue with _ | ⟨m, rest⟩
  · simp only [trySendNextControl, hq]
    exact senderFrame_rfl s
  · simp only [trySendNextControl, hq]
    exact ⟨rfl, rfl, hq.symm, rfl, rfl, ⟨[], by simp⟩, ⟨[], by simp⟩⟩

theorem groupA_frame (fuel : Nat) :
    (∀ s, SenderFrame s (sendNext fuel s)) ∧
    (∀ s, SenderFrame s (trySendNextChunk fuel s)) ∧
    (∀ s, SenderFrame s (chunkFailure fuel s)) := by
  induction fuel with
  | zero =>
    refine ⟨fun s => ?_, fun s => ?_, fun s => ?_⟩ <;>
      simp only [sendNext, trySendNextChunk, chunkFailure] <;>
      exact senderFrame_rfl s
  | succ f ih =>
    obtain ⟨ihS, ihC, ihF⟩ := ih
    refine ⟨fun s => ?_, fun s => ?_, fun s => ?_⟩
    · rw [sendNext]
      split
      · exact senderFrame_rfl s
      · split
        · exact senderFrame_rfl s
        · exact senderFrame_trans
            (b := { s with currentMessageType := some MsgKind.control })
            ⟨rfl, rfl, rfl, rfl, rfl, ⟨[], by simp⟩, ⟨[], by simp⟩⟩
            (senderFrame_trySendNextControl _)
        · exact senderFrame_trans
            (b := { s with currentMessageType := some MsgKind.object })
            ⟨rfl, rfl, rfl, rfl, rfl, ⟨[], by simp⟩, ⟨[], by simp⟩⟩
            (ihC _)
    · rw [trySendNextChunk]
      split
      · exact senderFrame_trans (senderFrame_resetCurrent s) (ihS _)
      · split
        · exact senderFrame_trans (b := { s with offsetBytes := 0 })
            ⟨rfl, rfl, rfl, rfl, rfl, ⟨[], by simp⟩, ⟨[], by simp⟩⟩ (ihF _)
        · split
          · exact senderFrame_rfl s
          · next o rest heq =>
            exact ⟨rfl, rfl, rfl, rfl, rfl, ⟨[], by simp⟩, ⟨[], by simp [heq]⟩⟩
    · rw [chunkFailure]
      split
      · exact senderFrame_trans (b := { s with failureCount := s.failureCount + 1 })
          ⟨rfl, rfl, rfl, rfl, rfl, ⟨[], by simp⟩, ⟨[], by simp⟩⟩ (ihC _)
      · refine senderFrame_trans (b := { s with failureCount := s.failureCount + 1 })
          ⟨rfl, rfl, rfl, rfl, rfl, ⟨[], by simp⟩, ⟨[], by simp⟩⟩ ?_
        exact senderFrame_trans (senderFrame_completeObject _ _) (ihS _)

theorem sendNext_of_controlQueue_ne (fuel : Nat) (s : CoreState)
    (h : s.controlQueue ≠ []) :
    (sendNext fuel s).ctrlState = s.ctrlState ∧
    (sendNext fuel s).protocol = s.protocol ∧
    (sendNext fuel s).controlQueue = s.controlQueue ∧
    (sendNext fuel s).objectQueue = s.objectQueue ∧
    (sendNext fuel s).recv = s.recv ∧
    (sendNext fuel s).events = s.events ∧
    (sendNext fuel s).fatalError = s.fatalError := by
  rcases hq : s.controlQueue with _ | ⟨m, rest⟩
  · exact absurd hq h
  · cases fuel with
    | zero => simp [sendNext, hq]
    | succ f =>
      rw [sendNext]
      by_cases h1 : s.currentMessageType.isSome
      · simp [h1, hq]
      · have hg : getNextMessageType s = some MsgKind.control := by
          simp [getNextMessageType, hq]
        simp [h1, hg, trySendNextControl, hq]

theorem enter_disconnected_fields (fuel : Nat) (s : CoreState) :
    (enter fuel s CtrlState.disconnected).ctrlState = CtrlState.awaitingRemoteInitiated ∧
    (enter fuel s CtrlState.disconnected).protocol = ⟨0, 0, 0⟩ ∧
    (enter fuel s CtrlState.disconnected).controlQueue = s.controlQueue ∧
    (enter fuel s CtrlState.disconnected).objectQueue = s.objectQueue ∧
    (enter fuel s CtrlState.disconnected).currentMessageType = s.currentMessageType ∧
    (enter fuel s CtrlState.disconnected).recv = s.recv ∧
    (enter fuel s CtrlState.disconnected).sent = s.sent := by
  unfold enter controlTransition resetProtocol
  by_cases h : s.ctrlState = CtrlState.sessionOpen <;> simp [h]

theorem enter_RI_fields (fuel : Nat) (s : CoreState) :
    (enter fuel s CtrlState.awaitingRemoteInitiated).ctrlState =
      CtrlState.awaitingRemoteInitiated ∧
    (enter fuel s CtrlState.awaitingRemoteInitiated).protocol = ⟨0, 0, 0⟩ ∧
    (enter fuel s CtrlState.awaitingRemoteInitiated).controlQueue =
      s.controlQueue ++ [⟨ControlKeyResetComplete, WireValue.bytes resetCompleteData⟩] ∧
    (enter fuel s CtrlState.awaitingRemoteInitiated).objectQueue = s.objectQueue ∧
    (enter fuel s CtrlState.awaitingRemoteInitiated).recv = s.recv ∧
    (enter fuel s CtrlState.awaitingRemoteInitiated).events =
      s.events ++ (if s.ctrlState = CtrlState.sessionOpen then [CoreEvent.disconnected] else []) := by
  unfold enter controlTransition controlSendResetComplete sendControl resetProtocol
  have hne : (({ s with
      protocol := ⟨0, 0, 0⟩, ctrlState := CtrlState.awaitingRemoteInitiated,
      controlQueue := s.controlQueue ++
        [⟨ControlKeyResetComplete, WireValue.bytes resetCompleteData⟩] } : CoreState)).controlQueue ≠ [] := by
    simp
  obtain ⟨f1, f2, f3, f4, f5, f6, f7⟩ := sendNext_of_controlQueue_ne fuel _ hne
  by_cases h : s.ctrlState = CtrlState.sessionOpen <;>
    simp_all [f1, f2, f3, f4, f5, f6]

theorem enter_LI_from_ne (fuel : Nat) (s : CoreState)
    (h : s.ctrlState ≠ CtrlState.awaitingLocalInitiated) :
    (enter fuel s CtrlState.awaitingLocalInitiated).ctrlState =
      CtrlState.awaitingLocalInitiated ∧
    (enter fuel s CtrlState.awaitingLocalInitiated).protocol = ⟨0, 0, 0⟩ ∧
    (enter fuel s CtrlState.awaitingLocalInitiated).controlQueue =
      s.controlQueue ++ [⟨ControlKeyResetRequest, WireValue.num 0⟩] ∧
    (enter fuel s CtrlState.awaitingLocalInitiated).objectQueue = s.objectQueue ∧
    (enter fuel s CtrlState.awaitingLocalInitiated).recv = s.recv ∧
    (enter fuel s CtrlState.awaitingLocalInitiated).events =
      s.events ++ (if s.ctrlState = CtrlState.sessionOpen then [CoreEvent.disconnected] else []) := by
  unfold enter controlTransition controlSendResetRequest sendControl resetProtocol
  have hne : (({ s with
      controlQueue := s.controlQueue ++
        [⟨ControlKeyResetRequest, WireValue.num 0⟩] } : CoreState)).controlQueue ≠ [] := by
    simp
  obtain ⟨f1, f2, f3, f4, f5, f6, f7⟩ := sendNext_of_controlQueue_ne fuel _ hne
  by_cases ho : s.ctrlState = CtrlState.sessionOpen <;>
    simp_all [f1, f2, f3, f4, f5, f6]

theorem enter_LI_from_LI (fuel : Nat) (s : CoreState)
    (h : s.ctrlState = CtrlState.awaitingLocalInitiated) :
    enter fuel s CtrlState.awaitingLocalInitiated =
      { s with protocol := ⟨0, 0, 0⟩, ctrlState := CtrlState.awaitingLocalInitiated } := by
  unfold enter controlTransition resetProtocol
  simp [h]

theorem enter_open_fields (fuel : Nat) (s : CoreState) :
    enter fuel s CtrlState.sessionOpen =
      { s with ctrlState := CtrlState.sessionOpen
             , events := s.events ++ [CoreEvent.connected] } := by
  unfold enter controlTransition
  simp

theorem validate_version_pos (r : RemoteProtocol) (p : Protocol)
    (h : remoteProtocolValidateAndSet r = some p) : 0 < p.version := by
  rcases r with ⟨minv?, maxv?, tx, rx⟩
  rcases minv? with _ | minv <;> rcases maxv? with _ | maxv <;>
    simp only [remoteProtocolValidateAndSet] at h
  · exact absurd h (by simp)
  · exact absurd h (by simp)
  · exact absurd h (by simp)
  · split at h
    · exact absurd h (by simp)
    · next hcond =>
      have hp := Option.some.inj h
      have hv : p.version = min maxv PROTOCOL.max_version := by
        rw [← hp]
      rw [hv]
      simp only [PROTOCOL] at hcond ⊢
      omega

theorem paramsInv_of_senderFrame {s t : CoreState}
    (hf : SenderFrame s t) (h : ParamsInv s) : ParamsInv t := by
  obtain ⟨f1, f2, -, -, -, -, -⟩ := hf
  exact ⟨fun ho => f2 ▸ h.1 (f1 ▸ ho), fun ho => f2 ▸ h.2 (f1 ▸ ho)⟩

theorem paramsInv_sendControl (fuel : Nat) (s : CoreState) (msg : AppMessage)
    (h : ParamsInv s) : ParamsInv (sendControl fuel s msg) := by
  have h1 : ParamsInv ({ s with controlQueue := s.controlQueue ++ [msg] } : CoreState) :=
    ⟨h.1, h.2⟩
  exact paramsInv_of_senderFrame ((groupA_frame fuel).1 _) h1

theorem paramsInv_enter_disconnected (fuel : Nat) (s : CoreState) :
    ParamsInv (enter fuel s CtrlState.disconnected) := by
  obtain ⟨f1, f2, -⟩ := enter_disconnected_fields fuel s
  exact ⟨fun ho => absurd (f1 ▸ ho) (by simp), fun _ => f2⟩

theorem paramsInv_enter_RI (fuel : Nat) (s : CoreState) :
    ParamsInv (enter fuel s CtrlState.awaitingRemoteInitiated) := by
  obtain ⟨f1, f2, -⟩ := enter_RI_fields fuel s
  exact ⟨fun ho => absurd (f1 ▸ ho) (by simp), fun _ => f2⟩

theorem paramsInv_enter_LI (fuel : Nat) (s : CoreState) :
    ParamsInv (enter fuel s CtrlState.awaitingLocalInitiated) := by
  by_cases hli : s.ctrlState = CtrlState.awaitingLocalInitiated
  · rw [enter_LI_from_LI fuel s hli]
    exact ⟨fun ho => absurd ho (by simp), fun _ => rfl⟩
  · obtain ⟨f1, f2, -⟩ := enter_LI_from_ne fuel s hli
    exact ⟨fun ho => absurd (f1 ▸ ho) (by simp), fun _ => f2⟩

theorem paramsInv_handle (parse : String → Option String) (decode : List Nat → String)
    (fuel : Nat) (s : CoreState) (p : Payload) (h : ParamsInv s) :
    ParamsInv (handle parse decode fuel s p) := by
  unfold handle
  split
  · exact h
  · by_cases h1 : hasKey p ControlKeyResetComplete
    · rw [if_pos h1]
      split
      · next prot heq =>
        rw [enter_open_fields]
        exact ⟨fun _ => validate_version_pos _ prot heq, fun hno => absurd rfl hno⟩
      · exact h
    · rw [if_neg h1]
      by_cases h2 : hasKey p ControlKeyResetRequest
      · rw [if_pos h2]
        exact paramsInv_enter_RI fuel s
      · rw [if_neg h2]
        by_cases h3 : hasKey p ControlKeyChunk
        · rw [if_pos h3]
          exact paramsInv_enter_LI fuel s
        · rw [if_neg h3]
          by_cases h4 : hasKey p ControlKeyUnsupportedError
          · rw [if_pos h4]
            exact ⟨h.1, h.2⟩
          · rw [if_neg h4]
            exact h
  · by_cases h1 : hasKey p ControlKeyResetComplete
    · rw [if_pos h1]
      split
      · next prot heq =>
        rw [enter_open_fields]
        refine ⟨fun _ => ?_, fun hno => absurd rfl hno⟩
        have hp : (controlSendResetComplete fuel { s with protocol := prot }).protocol = prot := by
          unfold controlSendResetComplete sendControl
          obtain ⟨-, f2, -⟩ := (groupA_frame fuel).1
            ({ s with protocol := prot
                    , controlQueue := s.controlQueue ++
                        [⟨ControlKeyResetComplete, WireValue.bytes resetCompleteData⟩] } : CoreState)
          exact f2
        simpa only [hp] using validate_version_pos _ prot heq
      · exact paramsInv_sendControl fuel s _ h
    · rw [if_neg h1]
      exact h
  · rename_i hst
    by_cases h1 : hasKey p ControlKeyChunk
    · rw [if_pos h1]
      split
      · next d heq2 =>
        dsimp only
        split
        · exact ⟨fun _ => h.1 hst, fun hno => absurd hst hno⟩
        · exact paramsInv_enter_LI fuel _
      · exact ⟨h.1, h.2⟩
    · rw [if_neg h1]
      by_cases h2 : hasKey p ControlKeyResetRequest
      · rw [if_pos h2]
        exact paramsInv_enter_RI fuel s
      · rw [if_neg h2]
        exact paramsInv_enter_LI fuel s

theorem paramsInv_step (parse : String → Option String) (decode : List Nat → String)
    (fuel : Nat) (s : CoreState) (e : Ev) (h : ParamsInv s) :
    ParamsInv (step parse decode fuel s e) := by
  cases e with
  | ready => exact paramsInv_enter_LI fuel s
  | appmessage p => exact paramsInv_handle parse decode fuel s p h
  | controlSendSuccess =>
    dsimp only [step]
    split
    · exact paramsInv_of_senderFrame ((groupA_frame fuel).1 _) ⟨h.1, h.2⟩
    · exact h
  | controlSendFailure =>
    dsimp only [step]
    split
    · simp only [controlFailure]
      split
      · exact paramsInv_of_senderFrame (senderFrame_trySendNextControl _) ⟨h.1, h.2⟩
      · exact paramsInv_of_senderFrame ((groupA_frame fuel).1 _)
          (paramsInv_enter_disconnected fuel _)
    · exact h
  | chunkSendSuccess =>
    dsimp only [step]
    split
    · simp only [chunkSuccess]
      split
      · exact h
      · split
        · exact paramsInv_of_senderFrame ((groupA_frame fuel).1 _)
            (paramsInv_of_senderFrame (senderFrame_completeObject _ _) ⟨h.1, h.2⟩)
        · exact paramsInv_of_senderFrame ((groupA_frame fuel).2.1 _) ⟨h.1, h.2⟩
    · exact h
  | chunkSendFailure =>
    dsimp only [step]
    split
    · exact paramsInv_of_senderFrame ((groupA_frame fuel).2.2 _) h
    · exact h
  | postMessage o =>
    dsimp only [step]
    exact paramsInv_of_senderFrame ((groupA_frame fuel).1 _) ⟨h.1, h.2⟩

theorem paramsInv_foldl (parse : String → Option String) (decode : List Nat → String)
    (fuel : Nat) (evs : List Ev) (s : CoreState) (h : ParamsInv s) :
    ParamsInv (evs.foldl (step parse decode fuel) s) := by
  induction evs generalizing s with
  | nil => exact h
  | cons e rest ih => exact ih _ (paramsInv_step parse decode fuel s e h)

theorem paramsInv_run (parse : String → Option String) (decode : List Nat → String)
    (fuel : Nat) (evs : List Ev) : ParamsInv (run parse decode fuel evs) :=
  paramsInv_foldl parse decode fuel evs initialState
    ⟨fun hx => absurd hx (by simp [initialState]), fun _ => rfl⟩

theorem keysOK_trySendNextControl (s : CoreState) (h : KeysOK s) :
    KeysOK (trySendNextControl s) := by
  rcases hq : s.controlQueue with _ | ⟨m, rest⟩
  · simpa [trySendNextControl, hq] using h
  · simp only [trySendNextControl, hq]
    refine ⟨?_, hq ▸ h.2⟩
    intro x hx
    rcases List.mem_append.mp hx with hx | hx
    · exact h.1 x hx
    · rcases List.mem_singleton.mp hx with rfl
      exact h.2 x (hq.symm ▸ List.mem_cons_self x rest)

theorem keysOK_completeObject (s : CoreState) (r : Option String) (h : KeysOK s) :
    KeysOK (completeObject s r) := by
  rcases hq : s.objectQueue with _ | ⟨o, rest⟩ <;> rcases r with _ | reason <;>
    simp only [completeObject, hq, resetCurrent] <;> exact ⟨h.1, h.2⟩

theorem keysOK_groupA (fuel : Nat) :
    (∀ s, KeysOK s → KeysOK (sendNext fuel s)) ∧
    (∀ s, KeysOK s → KeysOK (trySendNextChunk fuel s)) ∧
    (∀ s, KeysOK s → KeysOK (chunkFailure fuel s)) := by
  induction fuel with
  | zero =>
    exact ⟨fun s h => by rwa [sendNext], fun s h => by rwa [trySendNextChunk],
      fun s h => by rwa [chunkFailure]⟩
  | succ f ih =>
    obtain ⟨ihS, ihC, ihF⟩ := ih
    refine ⟨fun s h => ?_, fun s h => ?_, fun s h => ?_⟩
    · rw [sendNext]
      split
      · exact h
      · split
        · exact h
        · exact keysOK_trySendNextControl _ ⟨h.1, h.2⟩
        · exact ihC _ ⟨h.1, h.2⟩
    · rw [trySendNextChunk]
      split
      · exact ihS _ ⟨h.1, h.2⟩
      · split
        · exact ihF _ ⟨h.1, h.2⟩
        · split
          · exact h
          · next o rest heq =>
            refine ⟨?_, h.2⟩
            intro x hx
            rcases List.mem_append.mp hx with hx | hx
            · exact h.1 x hx
            · rcases List.mem_singleton.mp hx with rfl
              exact Or.inr (Or.inr (Or.inl rfl))
    · rw [chunkFailure]
      split
      · exact ihC _ ⟨h.1, h.2⟩
      · exact ihS _ (keysOK_completeObject _ _ ⟨h.1, h.2⟩)

theorem keysOK_sendControl (fuel : Nat) (s : CoreState) (msg : AppMessage)
    (hm : KeyOK msg.key) (h : KeysOK s) : KeysOK (sendControl fuel s msg) := by
  refine (keysOK_groupA fuel).1 _ ⟨h.1, ?_⟩
  intro x hx
  rcases List.mem_append.mp hx with hx | hx
  · exact h.2 x hx
  · rcases List.mem_singleton.mp hx with rfl
    exact hm

theorem keysOK_controlTransition (fuel : Nat) (s : CoreState)
    (target from_state : CtrlState) (h : KeysOK s) :
    KeysOK (controlTransition fuel s target from_state) := by
  cases target with
  | disconnected => exact ⟨h.1, h.2⟩
  | awaitingRemoteInitiated =>
    exact keysOK_sendControl fuel _ _ (Or.inr (Or.inl rfl)) ⟨h.1, h.2⟩
  | awaitingLocalInitiated =>
    simp only [controlTransition]
    split
    · exact (keysOK_sendControl fuel _ _ (Or.inl rfl) h).imp id id
    · exact ⟨h.1, h.2⟩
  | sessionOpen => exact ⟨h.1, h.2⟩

theorem keysOK_enter (fuel : Nat) (s : CoreState) (target : CtrlState)
    (h : KeysOK s) : KeysOK (enter fuel s target) := by
  simp only [enter]
  have htr := keysOK_controlTransition fuel s target s.ctrlState h
  split
  · exact ⟨htr.1, htr.2⟩
  · exact htr

theorem keysOK_handle (parse : String → Option String) (decode : List Nat → String)
    (fuel : Nat) (s : CoreState) (p : Payload) (h : KeysOK s) :
    KeysOK (handle parse decode fuel s p) := by
  unfold handle
  split
  · exact h
  · split
    · split
      · exact keysOK_enter fuel _ _ ⟨h.1, h.2⟩
      · exact h
    · split
      · exact keysOK_enter fuel _ _ h
      · split
        · exact keysOK_enter fuel _ _ h
        · split
          · exact ⟨h.1, h.2⟩
          · exact h
  · split
    · split
      · exact keysOK_enter fuel _ _
          (keysOK_sendControl fuel _ _ (Or.inr (Or.inl rfl)) ⟨h.1, h.2⟩)
      · exact keysOK_sendControl fuel _ _ (Or.inr (Or.inr (Or.inr rfl))) h
    · exact h
  · split
    · split
      · dsimp only
        split
        · exact ⟨h.1, h.2⟩
        · exact keysOK_enter fuel _ _ ⟨h.1, h.2⟩
      · exact ⟨h.1, h.2⟩
    · split
      · exact keysOK_enter fuel _ _ h
      · exact keysOK_enter fuel _ _ h

theorem keysOK_step (parse : String → Option String) (decode : List Nat → String)
    (fuel : Nat) (s : CoreState) (e : Ev) (h : KeysOK s) :
    KeysOK (step parse decode fuel s e) := by
  cases e with
  | ready => exact keysOK_enter fuel s _ h
  | appmessage p => exact keysOK_handle parse decode fuel s p h
  | controlSendSuccess =>
    dsimp only [step]
    split
    · refine (keysOK_groupA fuel).1 _ ⟨h.1, ?_⟩
      intro x hx
      exact h.2 x (List.tail_subset _ hx)
    · exact h
  | controlSendFailure =>
    dsimp only [step]
    split
    · simp only [controlFailure]
      split
      · exact keysOK_trySendNextControl _ ⟨h.1, h.2⟩
      · refine (keysOK_groupA fuel).1 _ (keysOK_enter fuel _ _ ⟨h.1, ?_⟩)
        intro x hx
        exact h.2 x (List.tail_subset _ hx)
    · exact h
  | chunkSendSuccess =>
    dsimp only [step]
    split
    · simp only [chunkSuccess]
      split
      · exact h
      · split
        · exact (keysOK_groupA fuel).1 _ (keysOK_completeObject _ _ ⟨h.1, h.2⟩)
        · exact (keysOK_groupA fuel).2.1 _ ⟨h.1, h.2⟩
    · exact h
  | chunkSendFailure =>
    dsimp only [step]
    split
    · exact (keysOK_groupA fuel).2.2 _ h
    · exact h
  | postMessage o =>
    dsimp only [step]
    exact (keysOK_groupA fuel).1 _ ⟨h.1, h.2⟩

theorem keysOK_foldl (parse : String → Option String) (decode : List Nat → String)
    (fuel : Nat) (evs : List Ev) (s : CoreState) (h : KeysOK s) :
    KeysOK (evs.foldl (step parse decode fuel) s) := by
  induction evs generalizing s with
  | nil => exact h
  | cons e rest ih => exact ih _ (keysOK_step parse decode fuel s e h)

theorem keysOK_run (parse : String → Option String) (decode : List Nat → String)
    (fuel : Nat) (evs : List Ev) : KeysOK (run parse decode fuel evs) :=
  keysOK_foldl parse decode fuel evs initialState
    ⟨fun m hm => absurd hm (by simp [initialState]),
     fun m hm => absurd hm (by simp [initialState])⟩

theorem handle_depends_only_on_wire_keys (parse : String → Option String)
    (decode : List Nat → String) (fuel : Nat) (s : CoreState) (p q : Payload)
    (hk : ∀ k, KeyOK k → lookupValue p k = lookupValue q k) :
    handle parse decode fuel s p = handle parse decode fuel s q := by
  have hrr := hk _ (Or.inl rfl)
  have hrc := hk _ (Or.inr (Or.inl rfl))
  have hch := hk _ (Or.inr (Or.inr (Or.inl rfl)))
  have hue := hk _ (Or.inr (Or.inr (Or.inr rfl)))
  unfold handle
  cases s.ctrlState <;> simp only [hasKey, hrr, hrc, hch, hue]

theorem recvInv_step (parse : String → Option String) (decode : List Nat → String)
    (st : RecvState) (c : Option Chunk) (h : RecvInv st) :
    RecvInv (handleChunkReceived parse decode st c).state := by
  rcases c with _ | ch
  · exact h
  · simp only [handleChunkReceived]
    split
    · exact h
    · split
      · exact h
      · split
        · rename_i g1 g2 g3
          have hempty : st.utf8_json_string = [] := by
            rcases hu : st.utf8_json_string with _ | ⟨b, rest⟩
            · rfl
            · rw [g3, hu] at g1
              simp at g1
          split
          · intro hne
            exact absurd rfl hne
          · intro hne
            simp [hempty, List.take_length]
        · rename_i g1 g2 g3
          have hf : ch.is_first = false := by
            rcases Bool.eq_false_or_eq_true ch.is_first with hf | hf
            · exact absurd hf g3
            · exact hf
          have hne2 : st.utf8_json_string ≠ [] := by
            intro hemp
            rw [hf, hemp] at g1
            simp at g1
          have hrec := h hne2
          split
          · intro hne
            exact absurd rfl hne
          · intro hne
            simp [hrec, List.take_length]

theorem recvBound_step (parse : String → Option String) (decode : List Nat → String)
    (st : RecvState) (c : Option Chunk) (h : RecvBound st)
    (hc : ∀ ch, c = some ch → ch.is_first = true → ch.data.length ≤ ch.num31) :
    RecvBound (handleChunkReceived parse decode st c).state := by
  rcases c with _ | ch
  · exact h
  · have hch := hc ch rfl
    simp only [handleChunkReceived]
    split
    · exact h
    · split
      · exact h
      · split
        · rename_i g1 g2 g3
          split
          · intro hne
            exact absurd rfl hne
          · intro hne
            simpa using hch g3
        · rename_i g1 g2 g3
          have hf : ch.is_first = false := by
            rcases Bool.eq_false_or_eq_true ch.is_first with hf | hf
            · exact absurd hf g3
            · exact hf
          have hle : st.received_size_bytes + ch.data.length ≤ st.total_size_bytes := by
            by_contra hgt
            exact g2 ⟨hf, Or.inr (by omega)⟩
          split
          · intro hne
            exact absurd rfl hne
          · intro hne
            exact hle

theorem recvInv_run (parse : String → Option String) (decode : List Nat → String)
    (cs : List (Option Chunk)) (st : RecvState) (h : RecvInv st) :
    RecvInv (recvRun parse decode cs st) := by
  induction cs generalizing st with
  | nil => exact h
  | cons c rest ih => exact ih _ (recvInv_step parse decode st c h)

theorem recvBound_run (parse : String → Option String) (decode : List Nat → String)
    (cs : List (Option Chunk)) (st : RecvState) (h : RecvBound st)
    (hcs : ∀ ch, some ch ∈ cs → ch.is_first = true → ch.data.length ≤ ch.num31) :
    RecvBound (recvRun parse decode cs st) := by
  induction cs generalizing st with
  | nil => exact h
  | cons c rest ih =>
    refine ih _ (recvBound_step parse decode st c h ?_) ?_
    · intro ch hc
      exact hcs ch (by rw [hc]; exact List.mem_cons_self _ _)
    · intro ch hmem
      exact hcs ch (List.mem_cons_of_mem _ hmem)

/-- C1 (amended): every dictionary the core hands to the lower transport
uses one of the four prefixed wire key strings `ControlKeyResetRequest`,
`ControlKeyResetComplete`, `ControlKeyChunk`, `ControlKeyUnsupportedError`;
the inbound dispatch recognizes exactly these four keys (its result depends
only on the payload's values at them); and the ResetRequest dictionary
handed to the lower transport after the ready event is the single-key
dictionary mapping `ControlKeyResetRequest` to 0.  The claim's unprefixed
strings (`ResetRequest` and friends) are not the wire strings. -/
theorem c1_wire_keys_amended :
    (∀ (parse : String → Option String) (decode : List Nat → String)
      (fuel : Nat) (evs : List Ev) (m : AppMessage),
        m ∈ (run parse decode fuel evs).sent → KeyOK m.key) ∧
    (∀ (parse : String → Option String) (decode : List Nat → String) (fuel : Nat),
      (run parse decode (fuel + 1) [Ev.ready]).sent =
        [⟨ControlKeyResetRequest, WireValue.num 0⟩]) ∧
    (∀ (parse : String → Option String) (decode : List Nat → String)
      (fuel : Nat) (s : CoreState) (p q : Payload),
        (∀ k, KeyOK k → lookupValue p k = lookupValue q k) →
          handle parse decode fuel s p = handle parse decode fuel s q) := by
  refine ⟨fun parse decode fuel evs m hm => (keysOK_run parse decode fuel evs).1 m hm,
    fun parse decode fuel => ?_,
    fun parse decode fuel s p q hk =>
      handle_depends_only_on_wire_keys parse decode fuel s p q hk⟩
  show (step parse decode (fuel + 1) initialState Ev.ready).sent = _
  simp [step, enter, controlTransition, controlSendResetRequest, sendControl,
    resetProtocol, sendNext, getNextMessageType, trySendNextControl, initialState]

/-- C1 witness: the wire-key discipline evaluated on the concrete ready
trace: the one dictionary sent is the prefixed ResetRequest dictionary. -/
theorem c1_wire_keys_witness :
    KeyOK (⟨ControlKeyResetRequest, WireValue.num 0⟩ : AppMessage).key :=
  c1_wire_keys_amended.1 parseSample decodeSample 5 [Ev.ready]
    ⟨ControlKeyResetRequest, WireValue.num 0⟩ (by decide)

/-- C1 counterexample: the dictionary handed to the lower transport after
`ready` carries the key string `ControlKeyResetRequest`, which is not the
claim's exact string `ResetRequest`. -/
theorem c1_wire_keys_counterexample :
    (run parseSample decodeSample 5 [Ev.ready]).sent.map AppMessage.key =
      [ControlKeyResetRequest] ∧ ControlKeyResetRequest ≠ "ResetRequest" := by
  constructor <;> decide

/-- C2 (amended): at every state reachable from the initial state by any
sequence of stimuli, all three negotiated parameters are 0 whenever Control
is outside SessionOpen, and the version is positive whenever Control is in
SessionOpen.  The claimed positivity of the chunk sizes in SessionOpen does
not hold (see the counterexample). -/
theorem c2_params_invariant_amended (parse : String → Option String)
    (decode : List Nat → String) (fuel : Nat) (evs : List Ev) :
    ((run parse decode fuel evs).ctrlState = CtrlState.sessionOpen →
      0 < (run parse decode fuel evs).protocol.version) ∧
    ((run parse decode fuel evs).ctrlState ≠ CtrlState.sessionOpen →
      (run parse decode fuel evs).protocol = ⟨0, 0, 0⟩) :=
  paramsInv_run parse decode fuel evs

/-- C2 witness: the invariant applied to the empty trace: the initial state
is not in SessionOpen and its parameters are all zero. -/
theorem c2_params_invariant_witness :
    (run parseSample decodeSample 5 []).protocol = ⟨0, 0, 0⟩ :=
  (c2_params_invariant_amended parseSample decodeSample 5 []).2 (by decide)

/-- C2 counterexample: a remote ResetComplete advertising version range
1..1 but zero chunk sizes drives Control into SessionOpen with
tx_chunk_size = 0 (and rx_chunk_size = 0), violating the claimed
invariant. -/
theorem c2_params_invariant_counterexample :
    (run parseSample decodeSample 5
      [Ev.ready, Ev.appmessage
        [(ControlKeyResetComplete, WireValue.bytes [1, 1, 0, 0, 0, 0])]]).ctrlState =
      CtrlState.sessionOpen ∧
    (run parseSample decodeSample 5
      [Ev.ready, Ev.appmessage
        [(ControlKeyResetComplete, WireValue.bytes [1, 1, 0, 0, 0, 0])]]).protocol.tx_chunk_size =
      0 := by
  constructor <;> decide

/-- C3 (amended): an inbound payload whose recognized key is ResetComplete
(no Chunk and no ResetRequest key), received while Control is in
SessionOpen, is NOT ignored: Control leaves SessionOpen for
AwaitingResetCompleteLocalInitiated, one ResetRequest control message is
enqueued, and a disconnected event is emitted; only the reassembly buffer
is untouched. -/
theorem c3_open_resetcomplete_amended (parse : String → Option String)
    (decode : List Nat → String) (fuel : Nat) (s : CoreState) (p : Payload)
    (hopen : s.ctrlState = CtrlState.sessionOpen)
    (_hrc : hasKey p ControlKeyResetComplete = true)
    (hnochunk : lookupValue p ControlKeyChunk = none)
    (hnorr : lookupValue p ControlKeyResetRequest = none) :
    (handle parse decode fuel s p).ctrlState = CtrlState.awaitingLocalInitiated ∧
    (handle parse decode fuel s p).controlQueue =
      s.controlQueue ++ [⟨ControlKeyResetRequest, WireValue.num 0⟩] ∧
    (handle parse decode fuel s p).events = s.events ++ [CoreEvent.disconnected] ∧
    (handle parse decode fuel s p).recv = s.recv := by
  have h1 : hasKey p ControlKeyChunk = false := by simp [hasKey, hnochunk]
  have h2 : hasKey p ControlKeyResetRequest = false := by simp [hasKey, hnorr]
  have hne : s.ctrlState ≠ CtrlState.awaitingLocalInitiated := by simp [hopen]
  obtain ⟨e1, e2, e3, e4, e5, e6⟩ := enter_LI_from_ne fuel s hne
  simp only [handle, hopen, h1, h2, Bool.false_eq_true, if_false]
  refine ⟨e1, e3, ?_, e5⟩
  rw [e6, hopen]
  simp

/-- C3 witness: the amended behavior at a concrete open-session state and a
concrete ResetComplete-only payload. -/
theorem c3_open_resetcomplete_witness :
    (handle parseSample decodeSample 5 sOpenSample
        [(ControlKeyResetComplete, WireValue.num 0)]).ctrlState =
      CtrlState.awaitingLocalInitiated ∧
    (handle parseSample decodeSample 5 sOpenSample
        [(ControlKeyResetComplete, WireValue.num 0)]).controlQueue =
      sOpenSample.controlQueue ++ [⟨ControlKeyResetRequest, WireValue.num 0⟩] ∧
    (handle parseSample decodeSample 5 sOpenSample
        [(ControlKeyResetComplete, WireValue.num 0)]).events =
      sOpenSample.events ++ [CoreEvent.disconnected] ∧
    (handle parseSample decodeSample 5 sOpenSample
        [(ControlKeyResetComplete, WireValue.num 0)]).recv = sOpenSample.recv :=
  c3_open_resetcomplete_amended parseSample decodeSample 5 sOpenSample
    [(ControlKeyResetComplete, WireValue.num 0)] rfl (by decide) (by decide) (by decide)

/-- C3 counterexample: in SessionOpen a pure ResetComplete payload does not
leave the core unchanged: Control is no longer in SessionOpen and a control
message has been enqueued. -/
theorem c3_open_resetcomplete_counterexample :
    (handle parseSample decodeSample 5 sOpenSample
        [(ControlKeyResetComplete, WireValue.bytes [1, 1, 3, 232, 3, 232])]).ctrlState ≠
      CtrlState.sessionOpen ∧
    (handle parseSample decodeSample 5 sOpenSample
        [(ControlKeyResetComplete, WireValue.bytes [1, 1, 3, 232, 3, 232])]).controlQueue ≠
      sOpenSample.controlQueue := by
  constructor <;> decide

theorem sendNext_of_empty (fuel : Nat) (s : CoreState)
    (h1 : s.controlQueue = []) (h2 : s.objectQueue = []) :
    sendNext fuel s = s := by
  cases fuel with
  | zero => rw [sendNext]
  | succ f =>
    rw [sendNext]
    by_cases hc : s.currentMessageType.isSome
    · simp [hc]
    · simp [hc, getNextMessageType, h1, h2]

theorem exhaust_helper (fuel : Nat) (t : CoreState) :
    (sendNext fuel (enter fuel t CtrlState.disconnected)).ctrlState =
      CtrlState.awaitingRemoteInitiated ∧
    (sendNext fuel (enter fuel t CtrlState.disconnected)).protocol = ⟨0, 0, 0⟩ ∧
    (sendNext fuel (enter fuel t CtrlState.disconnected)).controlQueue = t.controlQueue ∧
    (t.controlQueue = [] → t.objectQueue = [] →
      (sendNext fuel (enter fuel t CtrlState.disconnected)).currentMessageType =
        t.currentMessageType) := by
  obtain ⟨d1, d2, d3, d4, d5, d6, d7⟩ := enter_disconnected_fields fuel t
  obtain ⟨f1, f2, f3, f4, f5, ft, fd⟩ :=
    (groupA_frame fuel).1 (enter fuel t CtrlState.disconnected)
  refine ⟨f1.trans d1, f2.trans d2, f3.trans d3, ?_⟩
  intro hcq hoq
  rw [sendNext_of_empty fuel _ (d3.trans hcq) (d4.trans hoq)]
  exact d5

/-- C4 (amended): when a control send fails with failure_count already 3
(the fourth consecutive failure), the Sender pops the failed message from
the control queue, clears the in-flight state, runs the Disconnected entry
action (which resets the negotiated parameters to 0), and resumes the send
loop.  However, the Disconnected entry action assigns
AwaitingResetCompleteRemoteInitiated to the state machine, so afterwards
Control's state is AwaitingResetCompleteRemoteInitiated, not
Disconnected. -/
theorem c4_control_retry_exhaustion_amended (fuel : Nat) (s : CoreState)
    (h3 : s.failureCount = 3) (_hin : s.currentMessageType = some MsgKind.control) :
    (controlFailure fuel s).controlQueue = s.controlQueue.tail ∧
    (controlFailure fuel s).protocol = ⟨0, 0, 0⟩ ∧
    (controlFailure fuel s).ctrlState = CtrlState.awaitingRemoteInitiated ∧
    (s.controlQueue.tail = [] → s.objectQueue = [] →
      (controlFailure fuel s).currentMessageType = none) := by
  have h4 : ¬(s.failureCount + 1 ≤ 3) := by omega
  simp only [controlFailure]
  rw [if_neg h4]
  exact ⟨(exhaust_helper fuel _).2.2.1, (exhaust_helper fuel _).2.1,
    (exhaust_helper fuel _).1,
    fun hq ho => (exhaust_helper fuel _).2.2.2 hq ho⟩

/-- C4 witness: the amended exhaustion behavior at a concrete state with a
single queued control message. -/
theorem c4_control_retry_exhaustion_witness :
    (controlFailure 5 sCtrlFail).controlQueue = sCtrlFail.controlQueue.tail ∧
    (controlFailure 5 sCtrlFail).protocol = ⟨0, 0, 0⟩ ∧
    (controlFailure 5 sCtrlFail).ctrlState = CtrlState.awaitingRemoteInitiated ∧
    (sCtrlFail.controlQueue.tail = [] → sCtrlFail.objectQueue = [] →
      (controlFailure 5 sCtrlFail).currentMessageType = none) :=
  c4_control_retry_exhaustion_amended 5 sCtrlFail rfl rfl

/-- C4 counterexample: after the fourth consecutive control-send failure the
state machine sits in AwaitingResetCompleteRemoteInitiated, not in the
Disconnected state the claim asserts. -/
theorem c4_control_retry_exhaustion_counterexample :
    (controlFailure 5 sCtrlFail).ctrlState = CtrlState.awaitingRemoteInitiated ∧
    (controlFailure 5 sCtrlFail).ctrlState ≠ CtrlState.disconnected := by
  constructor <;> decide

theorem chunkExhaust_helper (fuel : Nat) (t : CoreState) (o : DataObject)
    (rest : List DataObject) (ht : t.objectQueue = o :: rest) :
    (∃ dropped, rest =
      dropped ++ (sendNext fuel (completeObject t (some tooManyFailures))).objectQueue) ∧
    (∃ evtail, (sendNext fuel (completeObject t (some tooManyFailures))).events =
      t.events ++ [CoreEvent.error o.json tooManyFailures] ++ evtail) ∧
    (t.controlQueue = [] → rest = [] →
      (sendNext fuel (completeObject t (some tooManyFailures))).objectQueue = [] ∧
      (sendNext fuel (completeObject t (some tooManyFailures))).currentMessageType = none ∧
      (sendNext fuel (completeObject t (some tooManyFailures))).events =
        t.events ++ [CoreEvent.error o.json tooManyFailures]) := by
  have hq : (completeObject t (some tooManyFailures)).objectQueue = rest := by
    simp [completeObject, ht, resetCurrent]
  have hev : (completeObject t (some tooManyFailures)).events =
      t.events ++ [CoreEvent.error o.json tooManyFailures] := by
    simp [completeObject, ht, resetCurrent]
  have hcq : (completeObject t (some tooManyFailures)).controlQueue = t.controlQueue := by
    simp [completeObject, ht, resetCurrent]
  have hcm : (completeObject t (some tooManyFailures)).currentMessageType = none := by
    simp [completeObject, ht, resetCurrent]
  obtain ⟨f1, f2, f3, f4, f5, ⟨evtail, hevt⟩, ⟨dropped, hdrop⟩⟩ :=
    (groupA_frame fuel).1 (completeObject t (some tooManyFailures))
  refine ⟨⟨dropped, ?_⟩, ⟨evtail, ?_⟩, ?_⟩
  · rw [← hq]
    exact hdrop
  · rw [hevt, hev]
  · intro h1 h2
    have hstay := sendNext_of_empty fuel (completeObject t (some tooManyFailures))
      (by rw [hcq, h1]) (by rw [hq, h2])
    rw [hstay]
    exact ⟨by rw [hq, h2], hcm, hev⟩

/-- C5: when a chunk send fails with failure_count already 3 (the fourth
consecutive failure of the same chunk), the Sender pops the head of the
object queue, clears the in-flight state, and emits the error event carrying
the original JSON string of the popped object and the reason
"Too many failed transfer attempts", then resumes the send loop.  The
resumed loop may go on processing the remaining queue entries, so in general
the pop and the emitted event are stated as suffix/prefix facts; the last
conjunct pins the exact final state when nothing else is queued. -/
theorem c5_chunk_retry_exhaustion (fuel : Nat) (s : CoreState) (o : DataObject)
    (rest : List DataObject) (h3 : s.failureCount = 3)
    (ho : s.objectQueue = o :: rest) :
    (∃ dropped, rest = dropped ++ (chunkFailure (fuel + 1) s).objectQueue) ∧
    (∃ evtail, (chunkFailure (fuel + 1) s).events =
      s.events ++ [CoreEvent.error o.json tooManyFailures] ++ evtail) ∧
    (s.controlQueue = [] → rest = [] →
      (chunkFailure (fuel + 1) s).objectQueue = [] ∧
      (chunkFailure (fuel + 1) s).currentMessageType = none ∧
      (chunkFailure (fuel + 1) s).events =
        s.events ++ [CoreEvent.error o.json tooManyFailures]) := by
  have h4 : ¬(s.failureCount + 1 ≤ 3) := by omega
  rw [chunkFailure]
  simp only []
  rw [if_neg h4]
  exact chunkExhaust_helper fuel { s with failureCount := s.failureCount + 1 } o rest ho

/-- C5 witness: the exhaustion behavior at a concrete state with a single
queued object. -/
theorem c5_chunk_retry_exhaustion_witness :
    (∃ dropped, ([] : List DataObject) =
      dropped ++ (chunkFailure (5 + 1) sChunkFail).objectQueue) ∧
    (∃ evtail, (chunkFailure (5 + 1) sChunkFail).events =
      sChunkFail.events ++ [CoreEvent.error objSample.json tooManyFailures] ++ evtail) ∧
    (sChunkFail.controlQueue = [] → ([] : List DataObject) = [] →
      (chunkFailure (5 + 1) sChunkFail).objectQueue = [] ∧
      (chunkFailure (5 + 1) sChunkFail).currentMessageType = none ∧
      (chunkFailure (5 + 1) sChunkFail).events =
        sChunkFail.events ++ [CoreEvent.error objSample.json tooManyFailures]) :=
  c5_chunk_retry_exhaustion 5 sChunkFail objSample [] rfl rfl

/-- C6 (amended): over any chunk sequence run from the empty reassembly
buffer, whenever the buffer is nonempty the received-byte counter equals
the buffer length; and provided every first chunk carries at most the total
it announces, the counter also stays within total_size_bytes.  A call that
completes a message clears the buffer while received_size_bytes retains the
total, and an oversized first chunk is accepted unchecked, so the claim's
unconditional equality and bound both fail (see the counterexample). -/
theorem c6_receiver_invariant_amended (parse : String → Option String)
    (decode : List Nat → String) (cs : List (Option Chunk)) :
    ((recvRun parse decode cs recvInit).utf8_json_string ≠ [] →
      (recvRun parse decode cs recvInit).received_size_bytes =
        (recvRun parse decode cs recvInit).utf8_json_string.length) ∧
    ((∀ ch, some ch ∈ cs → ch.is_first = true → ch.data.length ≤ ch.num31) →
      (recvRun parse decode cs recvInit).utf8_json_string ≠ [] →
      (recvRun parse decode cs recvInit).received_size_bytes ≤
        (recvRun parse decode cs recvInit).total_size_bytes) := by
  constructor
  · exact recvInv_run parse decode cs recvInit (fun hx => absurd rfl hx)
  · intro hcs
    exact recvBound_run parse decode cs recvInit (fun hx => absurd rfl hx) hcs

/-- C6 witness: the amended invariant applied to a concrete partial first
chunk: one byte received of an announced three, counter matches buffer. -/
theorem c6_receiver_invariant_witness :
    (recvRun parseSample decodeSample [some ⟨true, 3, [49]⟩] recvInit).received_size_bytes =
      (recvRun parseSample decodeSample [some ⟨true, 3, [49]⟩] recvInit).utf8_json_string.length :=
  (c6_receiver_invariant_amended parseSample decodeSample
    [some ⟨true, 3, [49]⟩]).1 (by decide)

/-- C6 counterexample: a completing single chunk leaves
received_size_bytes = 2 with an empty buffer, so the claimed equality fails
after that call; and an oversized first chunk (3 payload bytes against an
announced total of 1) leaves received_size_bytes above total_size_bytes. -/
theorem c6_receiver_invariant_counterexample :
    ¬((handleChunkReceived parseSample decodeSample recvInit
        (some ⟨true, 2, [48, 0]⟩)).state.received_size_bytes =
      (handleChunkReceived parseSample decodeSample recvInit
        (some ⟨true, 2, [48, 0]⟩)).state.utf8_json_string.length) ∧
    ¬((handleChunkReceived parseSample decodeSample recvInit
        (some ⟨true, 1, [48, 49, 50]⟩)).state.received_size_bytes ≤
      (handleChunkReceived parseSample decodeSample recvInit
        (some ⟨true, 1, [48, 49, 50]⟩)).state.total_size_bytes) := by
  constructor <;> decide

/-- C7: when the head object is partially transmitted (in-flight kind is
object) and a control message sits in the control queue, the next
`_trySendNextChunk` does not emit a chunk: it clears the in-flight state
(offset back to 0) and the send loop submits the control message instead,
leaving the partially sent object unchanged at the head of the object
queue; and once the control message completes, the object is re-selected
and the next submitted chunk is the is-first chunk of the whole object —
transmission restarts from offset 0, not from the previous offset. -/
theorem c7_preemption_restart (f g : Nat) (s : CoreState) (c : AppMessage)
    (o : DataObject) (oq : List DataObject)
    (hq : s.controlQueue = [c]) (ho : s.objectQueue = o :: oq)
    (_hk : s.currentMessageType = some MsgKind.object)
    (hopen : s.ctrlState = CtrlState.sessionOpen) :
    ((trySendNextChunk (f + 2) s).objectQueue = o :: oq ∧
     (trySendNextChunk (f + 2) s).offsetBytes = 0 ∧
     (trySendNextChunk (f + 2) s).currentMessageType = some MsgKind.control ∧
     (trySendNextChunk (f + 2) s).sent = s.sent ++ [c]) ∧
    (controlSuccess (g + 2) (trySendNextChunk (f + 2) s)).sent =
      s.sent ++ [c] ++ [⟨ControlKeyChunk, WireValue.bytes
        (chunkHeader true o.data.length ++
          o.data.take (min s.protocol.tx_chunk_size o.data.length))⟩] := by
  have hg : getNextMessageType s = some MsgKind.control := by
    simp [getNextMessageType, hq]
  have hs1 : trySendNextChunk (f + 2) s =
      { s with currentMessageType := some MsgKind.control
             , failureCount := 0
             , offsetBytes := 0
             , chunkPayloadSize := 0
             , sent := s.sent ++ [c] } := by
    rw [trySendNextChunk]
    rw [if_pos (by simp [hg])]
    rw [sendNext]
    simp [resetCurrent, getNextMessageType, hq, trySendNextControl]
  constructor
  · rw [hs1]
    exact ⟨ho, rfl, rfl, rfl⟩
  · rw [hs1]
    simp [controlSuccess, resetCurrent, sendNext, getNextMessageType, hq, ho, hopen,
      trySendNextChunk]

/-- C7 witness: the preemption-and-restart behavior at a concrete state with
offset 1 into a 2-byte object. -/
theorem c7_preemption_restart_witness :
    ((trySendNextChunk (3 + 2) sPreempt).objectQueue = objSample :: [] ∧
     (trySendNextChunk (3 + 2) sPreempt).offsetBytes = 0 ∧
     (trySendNextChunk (3 + 2) sPreempt).currentMessageType = some MsgKind.control ∧
     (trySendNextChunk (3 + 2) sPreempt).sent = sPreempt.sent ++ [ctrlMsgSample]) ∧
    (controlSuccess (3 + 2) (trySendNextChunk (3 + 2) sPreempt)).sent =
      sPreempt.sent ++ [ctrlMsgSample] ++ [⟨ControlKeyChunk, WireValue.bytes
        (chunkHeader true objSample.data.length ++
          objSample.data.take (min sPreempt.protocol.tx_chunk_size objSample.data.length))⟩] :=
  c7_preemption_restart 3 3 sPreempt ctrlMsgSample objSample [] rfl rfl rfl rfl

/-- C8 (amended): a first chunk carrying n = 1 whose payload is only the
0x00 terminator, received with an empty reassembly buffer, completes a
message with empty body: the empty byte buffer is decoded (to the empty
string), JSON.parse of it fails, the message is dropped with no message
event emitted, and the reassembly buffer is cleared.  A first chunk with
n = 0, as the claim literally says, is instead treated as incomplete — see
the counterexample. -/
theorem c8_empty_object_amended (parse : String → Option String)
    (decode : List Nat → String) (st : RecvState)
    (hempty : st.utf8_json_string = [])
    (hdec : decode [] = emptyStr) (hparse : parse emptyStr = none) :
    (handleChunkReceived parse decode st (some ⟨true, 1, [0]⟩)).ok = true ∧
    (handleChunkReceived parse decode st (some ⟨true, 1, [0]⟩)).message = none ∧
    (handleChunkReceived parse decode st (some ⟨true, 1, [0]⟩)).state.utf8_json_string = [] := by
  simp [handleChunkReceived, hempty, hdec, hparse]

/-- C8 witness: the amended behavior with the concrete external decoders:
decode of the empty buffer is the empty string and parsing it fails. -/
theorem c8_empty_object_witness :
    (handleChunkReceived parseSample decodeSample recvInit (some ⟨true, 1, [0]⟩)).ok = true ∧
    (handleChunkReceived parseSample decodeSample recvInit (some ⟨true, 1, [0]⟩)).message = none ∧
    (handleChunkReceived parseSample decodeSample recvInit
      (some ⟨true, 1, [0]⟩)).state.utf8_json_string = [] :=
  c8_empty_object_amended parseSample decodeSample recvInit rfl rfl
    (by simp [parseSample])

/-- C8 counterexample: the claim's n = 0 first chunk whose payload is only
the 0x00 terminator is not dropped and the buffer is not cleared: the byte
stays in the reassembly buffer (received_size_bytes 1 against an announced
total of 0) and nothing is decoded or parsed. -/
theorem c8_empty_object_counterexample :
    (handleChunkReceived parseSample decodeSample recvInit
      (some ⟨true, 0, [0]⟩)).state.utf8_json_string = [0] ∧
    ¬((handleChunkReceived parseSample decodeSample recvInit
      (some ⟨true, 0, [0]⟩)).state.utf8_json_string = []) ∧
    (handleChunkReceived parseSample decodeSample recvInit
      (some ⟨true, 0, [0]⟩)).message = none := by
  refine ⟨?_, ?_, ?_⟩ <;> decide

/-- C9 (amended): every event name that is neither one of the shim's own
events (message, postmessageerror, postmessageconnected,
postmessagedisconnected) nor the name appmessage is forwarded unchanged to
the lower transport's native listener registration; registering for
appmessage is NOT forwarded — it raises an error pointing the caller at
postMessage. -/
theorem c9_listener_forwarding_amended :
    (∀ e, isPostMessageEvent e = false → e ≠ appmessageName →
      addEventListenerAction e = ListenerAction.forward) ∧
    addEventListenerAction appmessageName = ListenerAction.raiseError := by
  constructor
  · intro e h1 h2
    rw [appmessageName] at h2
    simp [addEventListenerAction, h1, h2]
  · decide

/-- C9 witness: a lower-transport event name is forwarded unchanged. -/
theorem c9_listener_forwarding_witness :
    addEventListenerAction webviewclosedName = ListenerAction.forward :=
  c9_listener_forwarding_amended.1 webviewclosedName (by decide) (by decide)

/-- C9 counterexample: appmessage is not one of the shim's own events, yet
its registration is not forwarded to the lower transport. -/
theorem c9_listener_forwarding_counterexample :
    isPostMessageEvent appmessageName = false ∧
    addEventListenerAction appmessageName ≠ ListenerAction.forward := by
  constructor <;> decide

/-- C10: an inbound Chunk payload of byte length at most 4, received while
Control is in SessionOpen, makes the receiver report a protocol violation
(the unpacked chunk is rejected and the handler returns false) and Control
enters AwaitingResetCompleteLocalInitiated: a disconnected event is emitted
and one ResetRequest control message is enqueued — the session is torn down
rather than the chunk silently dropped. -/
theorem c10_short_chunk_teardown (parse : String → Option String)
    (decode : List Nat → String) (fuel : Nat) (s : CoreState) (p : Payload)
    (d : List Nat) (hopen : s.ctrlState = CtrlState.sessionOpen)
    (hd : lookupValue p ControlKeyChunk = some (WireValue.bytes d))
    (hlen : d.length ≤ 4) :
    (handle parse decode fuel s p).ctrlState = CtrlState.awaitingLocalInitiated ∧
    (handle parse decode fuel s p).controlQueue =
      s.controlQueue ++ [⟨ControlKeyResetRequest, WireValue.num 0⟩] ∧
    (handle parse decode fuel s p).events = s.events ++ [CoreEvent.disconnected] ∧
    (handle parse decode fuel s p).recv = s.recv := by
  have hhk : hasKey p ControlKeyChunk = true := by simp [hasKey, hd]
  have hup : unpackChunk d = none := by simp [unpackChunk, hlen]
  simp only [handle, hopen, hhk, if_true, hd, hup, handleChunkReceived,
    Bool.false_eq_true, if_false]
  obtain ⟨e1, e2, e3, e4, e5, e6⟩ := enter_LI_from_ne fuel
    ({ s with ctrlState := CtrlState.sessionOpen, events := s.events ++ [] } : CoreState)
    (by simp)
  refine ⟨e1, ?_, ?_, e5⟩
  · rw [e3]
  · rw [e6]
    simp

/-- C10 witness: the teardown at a concrete open-session state and a
concrete 4-byte chunk payload. -/
theorem c10_short_chunk_teardown_witness :
    (handle parseSample decodeSample 5 sOpenSample
        [(ControlKeyChunk, WireValue.bytes [1, 0, 0, 0])]).ctrlState =
      CtrlState.awaitingLocalInitiated ∧
    (handle parseSample decodeSample 5 sOpenSample
        [(ControlKeyChunk, WireValue.bytes [1, 0, 0, 0])]).controlQueue =
      sOpenSample.controlQueue ++ [⟨ControlKeyResetRequest, WireValue.num 0⟩] ∧
    (handle parseSample decodeSample 5 sOpenSample
        [(ControlKeyChunk, WireValue.bytes [1, 0, 0, 0])]).events =
      sOpenSample.events ++ [CoreEvent.disconnected] ∧
    (handle parseSample decodeSample 5 sOpenSample
        [(ControlKeyChunk, WireValue.bytes [1, 0, 0, 0])]).recv = sOpenSample.recv :=
  c10_short_chunk_teardown parseSample decodeSample 5 sOpenSample
    [(ControlKeyChunk, WireValue.bytes [1, 0, 0, 0])] [1, 0, 0, 0] rfl
    (by decide) (by decide)
